import Mathlib

/-!
scores: a terminal scoreboard of live college-football games.

A shallow embedding of `main.go`.  The program decodes a feed of games, keeps
the ones whose state is `"live"`, shows them in a list widget and fills a
three-row table (header, home, away) whenever an entry of the list is selected.

* The data model (`Conference`, `TeamNames`, `Team`, `Game`, `GameData`) is the
  one of the Go structs, field for field.
* The two widgets of the terminal toolkit the program drives (a table and a
  list, from the imported package `github.com/rivo/tview`) are given as small
  state-passing models in the namespace `tview`, after the behaviour the
  package documents: `SetCell` grows the grid on demand; `AddItem` appends and
  fires a "changed" event only for the first item and only if a handler is
  registered; `SetCurrentItem` clamps the index and fires a "changed" event
  only if the selection changes.
* `selectGame` and `mainStartup` follow `selectGame` and `main` statement by
  statement; a Go panic (index out of range) is the result `none`.
-/

namespace Scores

/-! ## Data model -/

/-- Go struct `Conference`. -/
structure Conference where
  ConferenceName : String
  ConferenceSeo : String
deriving DecidableEq, Repr

/-- Go struct `TeamNames`. -/
structure TeamNames where
  Char6 : String
  Short : String
  Seo : String
  Full : String
deriving DecidableEq, Repr

/-- Go struct `Team`. -/
structure Team where
  Score : String
  Names : TeamNames
  Winner : Bool
  Seed : String
  Description : String
  Rank : String
  Conferences : List Conference
deriving DecidableEq, Repr

/-- Go struct `Game`. -/
structure Game where
  GameID : String
  Away : Team
  FinalMessage : String
  BracketRound : String
  Title : String
  ContestName : String
  URL : String
  Network : String
  Home : Team
  LiveVideoEnabled : Bool
  StartTime : String
  StartTimeEpoch : String
  BracketID : String
  GameState : String
  StartDate : String
  CurrentPeriod : String
  VideoState : String
  BracketRegion : String
  ContestClock : String
deriving DecidableEq, Repr

/-- The anonymous element struct of `GameData.Games`: one wrapped `Game`. -/
structure GameEntry where
  Game : Game
deriving DecidableEq, Repr

/-- Go struct `GameData`: the decoded feed. -/
structure GameData where
  Games : List GameEntry
deriving DecidableEq, Repr

/-- The Go zero value of `TeamNames` (what lenient decoding leaves for absent fields). -/
def zeroTeamNames : TeamNames :=
  { Char6 := "", Short := "", Seo := "", Full := "" }

/-- The Go zero value of `Team`. -/
def zeroTeam : Team :=
  { Score := "", Names := zeroTeamNames, Winner := false, Seed := "",
    Description := "", Rank := "", Conferences := [] }

/-- The Go zero value of `Game`. -/
def zeroGame : Game :=
  { GameID := "", Away := zeroTeam, FinalMessage := "", BracketRound := "",
    Title := "", ContestName := "", URL := "", Network := "", Home := zeroTeam,
    LiveVideoEnabled := false, StartTime := "", StartTimeEpoch := "",
    BracketID := "", GameState := "", StartDate := "", CurrentPeriod := "",
    VideoState := "", BracketRegion := "", ContestClock := "" }

end Scores

/-! ## The toolkit's table widget -/

namespace tview

/-- The text colours the program touches: the cell default and `tcell.ColorYellow`. -/
inductive Color where
  | ColorDefault
  | ColorYellow
deriving DecidableEq, Repr

/-- Text alignment constants `AlignLeft`, `AlignCenter`, `AlignRight`. -/
inductive Alignment where
  | AlignLeft
  | AlignCenter
  | AlignRight
deriving DecidableEq, Repr

/-- A table cell: its text and the two style attributes `main.go` sets. -/
structure TableCell where
  Text : String
  Align : Alignment
  Color : Color
deriving DecidableEq, Repr

/-- An uninitialised cell (`&TableCell{}`), used by the grid to fill gaps. -/
def emptyCell : TableCell :=
  { Text := "", Align := Alignment.AlignLeft, Color := Color.ColorDefault }

/-- The toolkit's `tview.NewTableCell(text)`: a left-aligned cell of default colour. -/
def NewTableCell (text : String) : TableCell :=
  { Text := text, Align := Alignment.AlignLeft, Color := Color.ColorDefault }

/-- The toolkit's `(*TableCell).SetTextColor`. -/
def TableCell.SetTextColor (c : TableCell) (color : tview.Color) : TableCell :=
  { c with Color := color }

/-- The toolkit's `(*TableCell).SetAlign`. -/
def TableCell.SetAlign (c : TableCell) (align : tview.Alignment) : TableCell :=
  { c with Align := align }

/-- The table widget's content: a grid of rows that grows on demand. -/
structure Table where
  cells : List (List TableCell)
deriving DecidableEq, Repr

/-- The toolkit's `tview.NewTable()`: a table without any cell. -/
def NewTable : Table := { cells := [] }

/-- The toolkit's `(*Table).SetCell(row, column, cell)`: the grid is extended with empty rows
up to `row` and the row with uninitialised cells up to `column`, then the cell
is stored at that position. -/
def Table.SetCell (t : Table) (row column : Nat) (cell : TableCell) : Table :=
  let rows := t.cells ++ List.replicate (row + 1 - t.cells.length) []
  let r := rows.getD row []
  let r1 := (r ++ List.replicate (column + 1 - r.length) emptyCell).set column cell
  { cells := rows.set row r1 }

/-- The toolkit's `(*Table).GetCell(row, column)`: the stored cell, or an uninitialised one
when the position was never set. -/
def Table.GetCell (t : Table) (row column : Nat) : TableCell :=
  (t.cells.getD row []).getD column emptyCell

/-- The cell stored at a position of the grid, `none` when the grid does not
reach that position. -/
def Table.cellAt? (t : Table) (row column : Nat) : Option TableCell :=
  match t.cells[row]? with
  | none => none
  | some r => r[column]?

/-- Six `SetCell` calls in the order `selectGame` makes them: positions (0,0),
(0,1), (1,0), (1,1), (2,0), (2,1). -/
def Table.setSix (t : Table) (a b c d e f : TableCell) : Table :=
  (((((t.SetCell 0 0 a).SetCell 0 1 b).SetCell 1 0 c).SetCell 1 1 d).SetCell 2 0 e).SetCell 2 1 f

/-! ## The toolkit's list widget -/

/-- The signature of the list widget's "changed" and "selected" handlers,
`func(index int, mainText string, secondaryText string, shortcut rune)`, acting
on a piece of program state `σ`; `none` is a panic. -/
abbrev Handler (σ : Type) : Type := Int → String → String → Int → σ → Option σ

/-- One entry of the list widget: main text, secondary text and shortcut rune. -/
structure ListItem where
  MainText : String
  SecondaryText : String
  Shortcut : Int
deriving DecidableEq, Repr

/-- The list widget (`tview.List`; called `ListView` here, `List` being the type
of lists): its items, the index of the current item, and the handlers
registered with `SetChangedFunc` and `SetSelectedFunc` (`none` is Go's `nil`). -/
structure ListView (σ : Type) where
  items : List ListItem
  currentItem : Int
  changed : Option (Handler σ)
  selected : Option (Handler σ)

/-- The toolkit's `tview.NewList()`: no items, current item 0, no handlers. -/
def NewList {σ : Type} : ListView σ :=
  { items := [], currentItem := 0, changed := none, selected := none }

/-- The toolkit's `(*List).SetChangedFunc`: replaces the "changed" handler. -/
def ListView.SetChangedFunc {σ : Type} (l : ListView σ) (handler : Handler σ) : ListView σ :=
  { l with changed := some handler }

/-- The toolkit's `(*List).SetSelectedFunc`: replaces the "selected" handler. -/
def ListView.SetSelectedFunc {σ : Type} (l : ListView σ) (handler : Handler σ) : ListView σ :=
  { l with selected := some handler }

/-- The widget's `l.changed(index, item.MainText, item.SecondaryText, item.Shortcut)`
for `item := l.items[index]`, when a handler is registered; no effect otherwise. -/
def ListView.fireChanged {σ : Type} (l : ListView σ) (index : Int) (s : σ) : Option σ :=
  match l.changed with
  | none => some s
  | some handler =>
    if index < 0 then none
    else
      match l.items[index.toNat]? with
      | none => none
      | some item => handler index item.MainText item.SecondaryText item.Shortcut s

/-- The toolkit's `(*List).AddItem(mainText, secondaryText, shortcut, nil)`: appends the item;
a "changed" event is fired for the first item of the list when a handler is
already registered. -/
def ListView.AddItem {σ : Type} (l : ListView σ) (mainText secondaryText : String)
    (shortcut : Int) (s : σ) : Option (ListView σ × σ) :=
  let item : ListItem :=
    { MainText := mainText, SecondaryText := secondaryText, Shortcut := shortcut }
  let l1 : ListView σ := { l with items := l.items ++ [item] }
  if l1.items.length = 1 then (l1.fireChanged 0 s).map (fun s1 => (l1, s1))
  else some (l1, s)

/-- The toolkit's `(*List).SetCurrentItem(index)`: a negative index counts from the back, an
index out of range is clamped to the last and then to the first position, and
a "changed" event is fired only if the resulting index differs from the
current item. -/
def ListView.SetCurrentItem {σ : Type} (l : ListView σ) (index : Int) (s : σ) :
    Option (ListView σ × σ) :=
  let index := if index < 0 then (l.items.length : Int) + index else index
  let index := if index ≥ (l.items.length : Int) then (l.items.length : Int) - 1 else index
  let index := if index < 0 then 0 else index
  let fired := if index ≠ l.currentItem then l.fireChanged index s else some s
  fired.map (fun s1 => ({ l with currentItem := index }, s1))

end tview

namespace Scores

open tview

/-! ## `selectGame` -/

/-- The closure returned by `selectGame(data, main)`.  The table `main` the
closure points to is threaded through as the last argument.  `data[index]`
panics when `index` is out of range, after the two header cells were written. -/
def selectGame (data : List Game) : Handler Table :=
  fun index _mainText _secondaryText _shortcut main =>
    let main := main.SetCell 0 0
      (((NewTableCell "Team").SetTextColor Color.ColorYellow).SetAlign Alignment.AlignCenter)
    let main := main.SetCell 0 1
      (((NewTableCell "Score").SetTextColor Color.ColorYellow).SetAlign Alignment.AlignCenter)
    if index < 0 then none
    else
      match data[index.toNat]? with
      | none => none
      | some game =>
        let home := game.Home
        let homeRank := if home.Rank ≠ "" then "(" ++ home.Rank ++ ") " else ""
        let main := main.SetCell 1 0
          ((NewTableCell (homeRank ++ home.Names.Short ++ " " ++ home.Description)).SetAlign
            Alignment.AlignLeft)
        let main := main.SetCell 1 1 ((NewTableCell home.Score).SetAlign Alignment.AlignLeft)
        let away := game.Away
        let awayRank := if away.Rank ≠ "" then "(" ++ away.Rank ++ ") " else ""
        let main := main.SetCell 2 0
          ((NewTableCell (awayRank ++ game.Away.Names.Short ++ " " ++ home.Description)).SetAlign
            Alignment.AlignLeft)
        let main := main.SetCell 2 1 ((NewTableCell away.Score).SetAlign Alignment.AlignLeft)
        some main

end Scores


/-! ## `main`, from the decoded feed up to the start of the event loop -/

namespace Scores

open tview

/-- The program state `main` builds: the list widget `menu`, the table `main`
and the slice `displayGames`. -/
structure UI where
  menu : ListView Table
  main : Table
  displayGames : List Game

/-- The main text of a list entry, `fmt.Sprintf("%s @ %s", away short, home short)`. -/
def displayName (g : Game) : String :=
  g.Away.Names.Short ++ " @ " ++ g.Home.Names.Short

/-- The secondary text of a list entry,
`fmt.Sprintf("%s Quarter, %s remaining", CurrentPeriod, ContestClock)`. -/
def secondaryText (g : Game) : String :=
  g.CurrentPeriod ++ " Quarter, " ++ g.ContestClock ++ " remaining"

/-- The list entry `menu.AddItem(displayName, secondary text, 0, nil)` creates for a game. -/
def listEntry (g : Game) : ListItem :=
  { MainText := displayName g, SecondaryText := secondaryText g, Shortcut := 0 }

/-- The specification's `filterLive`: the games of the feed whose state tag is
exactly `"live"`, in feed order.  The code has no such function; it is what the
loop of `main` is compared with. -/
def filterLive (data : GameData) : List Game :=
  (data.Games.map (fun e => e.Game)).filter (fun g => decide (g.GameState = "live"))

/-- One iteration of `for _, g := range data.Games`. -/
def loopBody (st : UI) (g : GameEntry) : Option UI :=
  if g.Game.GameState = "live" then
    let displayGames := st.displayGames ++ [g.Game]
    match st.menu.AddItem (displayName g.Game) (secondaryText g.Game) 0 st.main with
    | none => none
    | some (menu, main) =>
      some { menu := (menu.SetChangedFunc (selectGame displayGames)).SetSelectedFunc
                       (selectGame displayGames),
             main := main,
             displayGames := displayGames }
  else some st

/-- The whole loop over `data.Games`. -/
def mainLoop : List GameEntry → UI → Option UI
  | [], st => some st
  | g :: gs, st =>
    match loopBody st g with
    | none => none
    | some st1 => mainLoop gs st1

/-- The state before the loop: `tview.NewList()`, `tview.NewTable()` and a nil slice. -/
def initialUI : UI :=
  { menu := NewList, main := NewTable, displayGames := [] }

/-- The function `main` after a successful fetch, up to (not including) the event
loop: build the widgets, run the loop, then
`menu.SetCurrentItem(1).SetCurrentItem(0)`.  The layout grid built in between
only places the two widgets and touches neither the list nor the table. -/
def mainStartup (data : GameData) : Option UI :=
  match mainLoop data.Games initialUI with
  | none => none
  | some st =>
    match st.menu.SetCurrentItem 1 st.main with
    | none => none
    | some (menu1, main1) =>
      match menu1.SetCurrentItem 0 main1 with
      | none => none
      | some (menu2, main2) =>
        some { menu := menu2, main := main2, displayGames := st.displayGames }

end Scores


/-! ## Example feeds -/

namespace Scores

/-- The game of the specification's scenarios A and B: Duke at UNC, live, third
period, 05:12 on the clock, UNC ranked 7 with 21 points. -/
def scenarioGame : Game :=
  { zeroGame with
    GameState := "live"
    CurrentPeriod := "3"
    ContestClock := "05:12"
    Home := { zeroTeam with Rank := "7", Score := "21", Description := "Tar Heels",
                            Names := { zeroTeamNames with Short := "UNC" } }
    Away := { zeroTeam with Score := "14", Description := "Blue Devils",
                            Names := { zeroTeamNames with Short := "Duke" } } }

/-- A game that is over. -/
def finalGame : Game :=
  { zeroGame with
    GameState := "final"
    Home := { zeroTeam with Score := "35", Description := "Wolverines",
                            Names := { zeroTeamNames with Short := "Michigan" } }
    Away := { zeroTeam with Score := "10", Description := "Buckeyes",
                            Names := { zeroTeamNames with Short := "Ohio St." } } }

/-- A second live game, without ranks. -/
def otherLiveGame : Game :=
  { zeroGame with
    GameState := "live"
    CurrentPeriod := "1"
    ContestClock := "11:40"
    Home := { zeroTeam with Score := "0", Description := "Aggies",
                            Names := { zeroTeamNames with Short := "Texas A&M" } }
    Away := { zeroTeam with Score := "3", Description := "Tigers",
                            Names := { zeroTeamNames with Short := "LSU" } } }

/-- A feed with exactly one live game. -/
def oneLiveFeed : GameData := { Games := [{ Game := finalGame }, { Game := scenarioGame }] }

/-- A feed without any live game. -/
def noLiveFeed : GameData := { Games := [{ Game := finalGame }] }

/-- A feed with two live games around a finished one. -/
def twoLiveFeed : GameData :=
  { Games := [{ Game := scenarioGame }, { Game := finalGame }, { Game := otherLiveGame }] }

end Scores

/-! ## Facts about the table grid -/

namespace tview

theorem getElem?_pad_set {α : Type} (l : List α) (i : Nat) (fill x : α) :
    ((l ++ List.replicate (i + 1 - l.length) fill).set i x)[i]? = some x := by
  apply List.getElem?_set_self
  simp only [List.length_append, List.length_replicate]
  omega

theorem getElem?_pad_set_ne {α : Type} (l : List α) (i j : Nat) (fill x y : α)
    (hij : i ≠ j) (h : l[j]? = some y) :
    ((l ++ List.replicate (i + 1 - l.length) fill).set i x)[j]? = some y := by
  rw [List.getElem?_set_ne hij]
  have hj : j < l.length := (List.getElem?_eq_some.mp h).1
  rw [List.getElem?_append_left hj]
  exact h

theorem pad_set_eq_self {α : Type} (l : List α) (i : Nat) (fill x : α)
    (h : l[i]? = some x) :
    (l ++ List.replicate (i + 1 - l.length) fill).set i x = l := by
  have hi : i < l.length := (List.getElem?_eq_some.mp h).1
  have h0 : i + 1 - l.length = 0 := by omega
  rw [h0, List.replicate_zero, List.append_nil]
  apply List.ext_getElem?
  intro n
  by_cases hn : i = n
  · subst hn
    rw [List.getElem?_set_self hi, h]
  · rw [List.getElem?_set_ne hn]

theorem pad_getD {α : Type} (l : List (List α)) (i : Nat) :
    ((l ++ List.replicate (i + 1 - l.length) [])[i]?).getD [] = (l[i]?).getD [] := by
  by_cases hi : i < l.length
  · rw [List.getElem?_append_left hi]
  · have hle : l.length ≤ i := by omega
    rw [List.getElem?_append_right hle, List.getElem?_eq_none hle]
    have : i - l.length < i + 1 - l.length := by omega
    rw [List.getElem?_replicate_of_lt this]
    rfl

theorem Table.cellAt?_SetCell_self (t : Table) (row column : Nat) (cell : TableCell) :
    (t.SetCell row column cell).cellAt? row column = some cell := by
  simp only [Table.cellAt?, Table.SetCell]
  rw [getElem?_pad_set]
  exact getElem?_pad_set _ _ _ _

theorem Table.cellAt?_SetCell_ne (t : Table) (row column r c : Nat) (cell y : TableCell)
    (hne : row ≠ r ∨ column ≠ c) (h : t.cellAt? r c = some y) :
    (t.SetCell row column cell).cellAt? r c = some y := by
  simp only [Table.cellAt?] at h
  cases hr : t.cells[r]? with
  | none => simp [hr] at h
  | some old =>
    simp only [hr] at h
    simp only [Table.cellAt?, Table.SetCell]
    by_cases hrow : row = r
    · subst hrow
      have hcol : column ≠ c := by
        rcases hne with h1 | h1
        · exact absurd rfl h1
        · exact h1
      rw [getElem?_pad_set]
      simp only [List.getD_eq_getElem?_getD, pad_getD, hr, Option.getD_some]
      exact getElem?_pad_set_ne _ _ _ _ _ _ hcol h
    · rw [getElem?_pad_set_ne _ _ _ _ _ _ hrow hr]
      exact h

theorem Table.SetCell_eq_self (t : Table) (row column : Nat) (cell : TableCell)
    (h : t.cellAt? row column = some cell) : t.SetCell row column cell = t := by
  simp only [Table.cellAt?] at h
  cases hr : t.cells[row]? with
  | none => simp [hr] at h
  | some old =>
    simp only [hr] at h
    cases t with
    | mk cells =>
      simp only [Table.SetCell, List.getD_eq_getElem?_getD, pad_getD] at hr ⊢
      simp only [hr, Option.getD_some]
      rw [pad_set_eq_self old column emptyCell cell h]
      rw [pad_set_eq_self cells row [] old hr]

theorem Table.GetCell_of_cellAt? (t : Table) (row column : Nat) (cell : TableCell)
    (h : t.cellAt? row column = some cell) : t.GetCell row column = cell := by
  simp only [Table.cellAt?] at h
  cases hr : t.cells[row]? with
  | none => simp [hr] at h
  | some old =>
    simp only [hr] at h
    simp [Table.GetCell, hr, h]

theorem Table.setSix_cells (t : Table) (a b c d e f : TableCell) :
    (t.setSix a b c d e f).cellAt? 0 0 = some a
      ∧ (t.setSix a b c d e f).cellAt? 0 1 = some b
      ∧ (t.setSix a b c d e f).cellAt? 1 0 = some c
      ∧ (t.setSix a b c d e f).cellAt? 1 1 = some d
      ∧ (t.setSix a b c d e f).cellAt? 2 0 = some e
      ∧ (t.setSix a b c d e f).cellAt? 2 1 = some f := by
  unfold Table.setSix
  refine ⟨?c00, ?c01, ?c10, ?c11, ?c20, ?c21⟩
  case c21 => exact Table.cellAt?_SetCell_self _ _ _ _
  case c20 =>
    apply Table.cellAt?_SetCell_ne _ _ _ _ _ _ _ (Or.inr (by decide))
    exact Table.cellAt?_SetCell_self _ _ _ _
  case c11 =>
    apply Table.cellAt?_SetCell_ne _ _ _ _ _ _ _ (Or.inl (by decide))
    apply Table.cellAt?_SetCell_ne _ _ _ _ _ _ _ (Or.inl (by decide))
    exact Table.cellAt?_SetCell_self _ _ _ _
  case c10 =>
    apply Table.cellAt?_SetCell_ne _ _ _ _ _ _ _ (Or.inl (by decide))
    apply Table.cellAt?_SetCell_ne _ _ _ _ _ _ _ (Or.inl (by decide))
    apply Table.cellAt?_SetCell_ne _ _ _ _ _ _ _ (Or.inr (by decide))
    exact Table.cellAt?_SetCell_self _ _ _ _
  case c01 =>
    apply Table.cellAt?_SetCell_ne _ _ _ _ _ _ _ (Or.inl (by decide))
    apply Table.cellAt?_SetCell_ne _ _ _ _ _ _ _ (Or.inl (by decide))
    apply Table.cellAt?_SetCell_ne _ _ _ _ _ _ _ (Or.inl (by decide))
    apply Table.cellAt?_SetCell_ne _ _ _ _ _ _ _ (Or.inl (by decide))
    exact Table.cellAt?_SetCell_self _ _ _ _
  case c00 =>
    apply Table.cellAt?_SetCell_ne _ _ _ _ _ _ _ (Or.inl (by decide))
    apply Table.cellAt?_SetCell_ne _ _ _ _ _ _ _ (Or.inl (by decide))
    apply Table.cellAt?_SetCell_ne _ _ _ _ _ _ _ (Or.inl (by decide))
    apply Table.cellAt?_SetCell_ne _ _ _ _ _ _ _ (Or.inl (by decide))
    apply Table.cellAt?_SetCell_ne _ _ _ _ _ _ _ (Or.inr (by decide))
    exact Table.cellAt?_SetCell_self _ _ _ _

theorem Table.setSix_of_cells (t : Table) (a b c d e f : TableCell)
    (ha : t.cellAt? 0 0 = some a) (hb : t.cellAt? 0 1 = some b)
    (hc : t.cellAt? 1 0 = some c) (hd : t.cellAt? 1 1 = some d)
    (he : t.cellAt? 2 0 = some e) (hf : t.cellAt? 2 1 = some f) :
    t.setSix a b c d e f = t := by
  unfold Table.setSix
  rw [Table.SetCell_eq_self _ 0 0 _ ha, Table.SetCell_eq_self _ 0 1 _ hb,
    Table.SetCell_eq_self _ 1 0 _ hc, Table.SetCell_eq_self _ 1 1 _ hd,
    Table.SetCell_eq_self _ 2 0 _ he, Table.SetCell_eq_self _ 2 1 _ hf]

theorem Table.setSix_idem (t : Table) (a b c d e f : TableCell) :
    (t.setSix a b c d e f).setSix a b c d e f = t.setSix a b c d e f := by
  obtain ⟨ha, hb, hc, hd, he, hf⟩ := Table.setSix_cells t a b c d e f
  exact Table.setSix_of_cells _ a b c d e f ha hb hc hd he hf

theorem Table.setSix_NewTable (a b c d e f : TableCell) :
    NewTable.setSix a b c d e f = { cells := [[a, b], [c, d], [e, f]] } := by
  have s1 : NewTable.SetCell 0 0 a = { cells := [[a]] } := by
    simp only [Table.SetCell, NewTable]
    simp
  have s2 : (Table.mk [[a]]).SetCell 0 1 b = { cells := [[a, b]] } := by
    simp only [Table.SetCell]
    simp
  have s3 : (Table.mk [[a, b]]).SetCell 1 0 c = { cells := [[a, b], [c]] } := by
    simp only [Table.SetCell]
    simp
  have s4 : (Table.mk [[a, b], [c]]).SetCell 1 1 d = { cells := [[a, b], [c, d]] } := by
    simp only [Table.SetCell]
    simp
  have s5 : (Table.mk [[a, b], [c, d]]).SetCell 2 0 e = { cells := [[a, b], [c, d], [e]] } := by
    simp only [Table.SetCell]
    simp
  have s6 : (Table.mk [[a, b], [c, d], [e]]).SetCell 2 1 f
      = { cells := [[a, b], [c, d], [e, f]] } := by
    simp only [Table.SetCell]
    simp
  unfold Table.setSix
  rw [s1, s2, s3, s4, s5, s6]

theorem Table.setSix_grid (a b c d e f a1 b1 c1 d1 e1 f1 : TableCell) :
    (Table.mk [[a, b], [c, d], [e, f]]).setSix a1 b1 c1 d1 e1 f1
      = { cells := [[a1, b1], [c1, d1], [e1, f1]] } := by
  have s1 : (Table.mk [[a, b], [c, d], [e, f]]).SetCell 0 0 a1
      = { cells := [[a1, b], [c, d], [e, f]] } := by
    simp only [Table.SetCell]
    simp
  have s2 : (Table.mk [[a1, b], [c, d], [e, f]]).SetCell 0 1 b1
      = { cells := [[a1, b1], [c, d], [e, f]] } := by
    simp only [Table.SetCell]
    simp
  have s3 : (Table.mk [[a1, b1], [c, d], [e, f]]).SetCell 1 0 c1
      = { cells := [[a1, b1], [c1, d], [e, f]] } := by
    simp only [Table.SetCell]
    simp
  have s4 : (Table.mk [[a1, b1], [c1, d], [e, f]]).SetCell 1 1 d1
      = { cells := [[a1, b1], [c1, d1], [e, f]] } := by
    simp only [Table.SetCell]
    simp
  have s5 : (Table.mk [[a1, b1], [c1, d1], [e, f]]).SetCell 2 0 e1
      = { cells := [[a1, b1], [c1, d1], [e1, f]] } := by
    simp only [Table.SetCell]
    simp
  have s6 : (Table.mk [[a1, b1], [c1, d1], [e1, f]]).SetCell 2 1 f1
      = { cells := [[a1, b1], [c1, d1], [e1, f1]] } := by
    simp only [Table.SetCell]
    simp
  unfold Table.setSix
  rw [s1, s2, s3, s4, s5, s6]

theorem Table.setSix_setSix_NewTable (a b c d e f a1 b1 c1 d1 e1 f1 : TableCell) :
    (NewTable.setSix a b c d e f).setSix a1 b1 c1 d1 e1 f1
      = NewTable.setSix a1 b1 c1 d1 e1 f1 := by
  rw [Table.setSix_NewTable, Table.setSix_grid, Table.setSix_NewTable]

end tview

/-! ## Facts about `selectGame` -/

namespace Scores

open tview

/-- For an index in range the handler is six `SetCell` calls with the cells
computed from `data[index]`. -/
theorem selectGame_eq (data : List Game) (index : Int) (mainText secondaryText : String)
    (shortcut : Int) (main : Table) (game : Game)
    (h0 : 0 ≤ index) (hg : data[index.toNat]? = some game) :
    selectGame data index mainText secondaryText shortcut main = some (main.setSix
      { Text := "Team", Align := Alignment.AlignCenter, Color := Color.ColorYellow }
      { Text := "Score", Align := Alignment.AlignCenter, Color := Color.ColorYellow }
      { Text := (if game.Home.Rank ≠ "" then "(" ++ game.Home.Rank ++ ") " else "")
                  ++ game.Home.Names.Short ++ " " ++ game.Home.Description,
        Align := Alignment.AlignLeft, Color := Color.ColorDefault }
      { Text := game.Home.Score, Align := Alignment.AlignLeft, Color := Color.ColorDefault }
      { Text := (if game.Away.Rank ≠ "" then "(" ++ game.Away.Rank ++ ") " else "")
                  ++ game.Away.Names.Short ++ " " ++ game.Home.Description,
        Align := Alignment.AlignLeft, Color := Color.ColorDefault }
      { Text := game.Away.Score, Align := Alignment.AlignLeft,
        Color := Color.ColorDefault }) := by
  have hneg : ¬ index < 0 := by omega
  simp only [selectGame, hneg, hg, if_false, Table.setSix, NewTableCell, TableCell.SetAlign,
    TableCell.SetTextColor]

/-- An index in range, as an `Int`, names an element of the slice. -/
theorem index_in_range {α : Type} (data : List α) (index : Int)
    (h0 : 0 ≤ index) (h1 : index < (data.length : Int)) :
    ∃ x, data[index.toNat]? = some x := by
  have h : index.toNat < data.length := by omega
  exact ⟨data[index.toNat], List.getElem?_eq_getElem h⟩

end Scores

/-! ## Facts about the loop of `main` -/

namespace Scores

open tview

/-- What holds of the program state between two iterations of the loop. -/
structure LoopInv (st : UI) : Prop where
  items_eq : st.menu.items = st.displayGames.map listEntry
  current_eq : st.menu.currentItem = 0
  main_eq : st.main = NewTable
  changed_nil : st.displayGames = [] → st.menu.changed = none
  changed_some : st.displayGames ≠ [] → st.menu.changed = some (selectGame st.displayGames)
  selected_nil : st.displayGames = [] → st.menu.selected = none
  selected_some : st.displayGames ≠ [] → st.menu.selected = some (selectGame st.displayGames)

theorem initialUI_inv : LoopInv initialUI where
  items_eq := rfl
  current_eq := rfl
  main_eq := rfl
  changed_nil := fun _ => rfl
  changed_some := fun h => absurd rfl h
  selected_nil := fun _ => rfl
  selected_some := fun h => absurd rfl h

/-- Adding an entry during the loop never runs a handler: either none is
registered yet (first entry) or the list already has an entry. -/
theorem AddItem_in_loop (st : UI) (hinv : LoopInv st) (mainText secondaryText : String)
    (shortcut : Int) :
    st.menu.AddItem mainText secondaryText shortcut st.main =
      some ({ st.menu with items := st.menu.items ++
                [{ MainText := mainText, SecondaryText := secondaryText,
                   Shortcut := shortcut }] }, st.main) := by
  unfold ListView.AddItem
  by_cases hd : st.displayGames = []
  · have hc := hinv.changed_nil hd
    have hi : st.menu.items = [] := by rw [hinv.items_eq, hd]; rfl
    simp [hi, ListView.fireChanged, hc]
  · have hlen : st.menu.items.length ≠ 0 := by
      rw [hinv.items_eq, List.length_map]
      exact fun h => hd (List.length_eq_zero.mp h)
    have hne : ¬ (st.menu.items ++ [ListItem.mk mainText secondaryText shortcut]).length = 1 := by
      rw [List.length_append, List.length_singleton]
      omega
    simp only [hne, if_false]

theorem loopBody_inv (st : UI) (g : GameEntry) (hinv : LoopInv st) :
    ∃ st1, loopBody st g = some st1 ∧ LoopInv st1 ∧
      st1.displayGames = st.displayGames ++ (if g.Game.GameState = "live" then [g.Game] else []) := by
  by_cases hl : g.Game.GameState = "live"
  · simp only [loopBody, hl, if_true, AddItem_in_loop st hinv]
    refine ⟨_, rfl, ?_, rfl⟩
    constructor
    · simp [ListView.SetChangedFunc, ListView.SetSelectedFunc, hinv.items_eq, listEntry]
    · simp [ListView.SetChangedFunc, ListView.SetSelectedFunc, hinv.current_eq]
    · exact hinv.main_eq
    · intro h
      simp at h
    · intro _
      rfl
    · intro h
      simp at h
    · intro _
      rfl
  · simp only [loopBody, hl, if_false]
    exact ⟨st, rfl, hinv, by simp⟩

theorem mainLoop_inv (gs : List GameEntry) (st : UI) (hinv : LoopInv st) :
    ∃ st1, mainLoop gs st = some st1 ∧ LoopInv st1 ∧
      st1.displayGames = st.displayGames ++
        (gs.map (fun e => e.Game)).filter (fun g => decide (g.GameState = "live")) := by
  induction gs generalizing st with
  | nil => exact ⟨st, rfl, hinv, by simp⟩
  | cons g gs ih =>
    obtain ⟨st1, h1, hinv1, hd1⟩ := loopBody_inv st g hinv
    obtain ⟨st2, h2, hinv2, hd2⟩ := ih st1 hinv1
    refine ⟨st2, ?_, hinv2, ?_⟩
    · simp only [mainLoop, h1, h2]
    · rw [hd2, hd1]
      by_cases hl : g.Game.GameState = "live"
      · simp [hl]
      · simp [hl]

end Scores

/-! ## Facts about the startup sequence -/

namespace tview

/-- On a list with at most one item whose current item is 0, `SetCurrentItem`
clamps every non-negative index to 0 and fires nothing. -/
theorem ListView.SetCurrentItem_short {σ : Type} (l : ListView σ) (index : Int) (s : σ)
    (hlen : l.items.length ≤ 1) (hcur : l.currentItem = 0) (hidx : 0 ≤ index) :
    l.SetCurrentItem index s = some ({ l with currentItem := 0 }, s) := by
  unfold ListView.SetCurrentItem
  have h1 : ¬ index < 0 := by omega
  simp only [h1, if_false]
  by_cases h2 : index ≥ (l.items.length : Int)
  · simp only [h2, if_true]
    by_cases h3 : (l.items.length : Int) - 1 < 0
    · simp [h3, hcur]
    · have h4 : (l.items.length : Int) - 1 = 0 := by omega
      simp [h4, hcur]
  · have h5 : index = 0 := by omega
    subst h5
    simp [h2, hcur]

/-- On a list with an item at a non-negative `index` that is not the current
one, `SetCurrentItem index` runs the registered "changed" handler on it. -/
theorem ListView.SetCurrentItem_fire {σ : Type} (l : ListView σ) (index : Int) (s : σ)
    (handler : Handler σ) (item : ListItem)
    (hidx : 0 ≤ index) (hitem : l.items[index.toNat]? = some item)
    (hcur : index ≠ l.currentItem) (hch : l.changed = some handler) :
    l.SetCurrentItem index s =
      (handler index item.MainText item.SecondaryText item.Shortcut s).map
        (fun s1 => ({ l with currentItem := index }, s1)) := by
  unfold ListView.SetCurrentItem
  have h1 : ¬ index < 0 := by omega
  have hlt : index.toNat < l.items.length := (List.getElem?_eq_some.mp hitem).1
  have h2 : ¬ index ≥ (l.items.length : Int) := by omega
  simp only [h1, h2, if_false, hcur, ne_eq, not_false_eq_true, if_true, ListView.fireChanged,
    hch, hitem]

end tview

namespace Scores

open tview

/-- The state `main` reaches just before the event loop, for every feed: the
live games in feed order, one list entry per live game, the handlers built from
the complete live sequence, and the table: untouched when fewer than two games
are live, and otherwise what the handler writes for index 0 on a fresh table. -/
theorem mainStartup_result (data : GameData) :
    ∃ ui, mainStartup data = some ui
      ∧ ui.displayGames = filterLive data
      ∧ ui.menu.items = (filterLive data).map listEntry
      ∧ ui.menu.currentItem = 0
      ∧ (filterLive data = [] → ui.menu.changed = none ∧ ui.menu.selected = none)
      ∧ (filterLive data ≠ [] → ui.menu.changed = some (selectGame (filterLive data))
            ∧ ui.menu.selected = some (selectGame (filterLive data)))
      ∧ ((filterLive data).length < 2 → ui.main = NewTable)
      ∧ (2 ≤ (filterLive data).length →
            selectGame (filterLive data) 0 "" "" 0 NewTable = some ui.main) := by
  obtain ⟨st, hloop, hinv, hdg⟩ := mainLoop_inv data.Games initialUI initialUI_inv
  have hdg1 : st.displayGames = filterLive data := by
    rw [hdg]
    simp [initialUI, filterLive]
  rw [← hdg1]
  by_cases hlen : st.displayGames.length < 2
  · have hil : st.menu.items.length ≤ 1 := by
      rw [hinv.items_eq, List.length_map]
      omega
    have e1 := ListView.SetCurrentItem_short st.menu 1 st.main hil hinv.current_eq (by decide)
    have e2 := ListView.SetCurrentItem_short { st.menu with currentItem := 0 } 0 st.main hil rfl
      (by decide)
    refine ⟨{ menu := { st.menu with currentItem := 0 }, main := st.main,
              displayGames := st.displayGames }, ?_, rfl, hinv.items_eq, rfl, ?_, ?_, ?_, ?_⟩
    · simp only [mainStartup, hloop, e1, e2]
    · exact fun h => ⟨hinv.changed_nil h, hinv.selected_nil h⟩
    · exact fun h => ⟨hinv.changed_some h, hinv.selected_some h⟩
    · exact fun _ => hinv.main_eq
    · intro h
      omega
  · have hl0 : 0 < st.displayGames.length := by omega
    have hl1 : 1 < st.displayGames.length := by omega
    have hg0 : st.displayGames[(0 : Int).toNat]? = some st.displayGames[0] :=
      List.getElem?_eq_getElem hl0
    have hg1 : st.displayGames[(1 : Int).toNat]? = some st.displayGames[1] :=
      List.getElem?_eq_getElem hl1
    have hne : st.displayGames ≠ [] := by
      intro h
      rw [h] at hl0
      exact absurd hl0 (by decide)
    have hi0 : st.menu.items[(0 : Int).toNat]? = some (listEntry st.displayGames[0]) := by
      rw [hinv.items_eq, List.getElem?_map, hg0]
      rfl
    have hi1 : st.menu.items[(1 : Int).toNat]? = some (listEntry st.displayGames[1]) := by
      rw [hinv.items_eq, List.getElem?_map, hg1]
      rfl
    have e1 := ListView.SetCurrentItem_fire st.menu 1 st.main (selectGame st.displayGames)
      (listEntry st.displayGames[1]) (by decide) hi1 (by rw [hinv.current_eq]; decide)
      (hinv.changed_some hne)
    rw [selectGame_eq st.displayGames 1 _ _ _ st.main _ (by decide) hg1, hinv.main_eq,
      Option.map_some'] at e1
    have hcur : (0 : Int) ≠ ({ st.menu with currentItem := 1 } : ListView Table).currentItem := by
      show (0 : Int) ≠ 1
      decide
    have e2 := fun t => ListView.SetCurrentItem_fire { st.menu with currentItem := 1 } 0 t
      (selectGame st.displayGames) (listEntry st.displayGames[0]) (by decide) hi0 hcur
      (hinv.changed_some hne)
    have e3 := fun t => selectGame_eq st.displayGames 0 (listEntry st.displayGames[0]).MainText
      (listEntry st.displayGames[0]).SecondaryText (listEntry st.displayGames[0]).Shortcut t _
      (by decide) hg0
    simp only [e3, Option.map_some'] at e2
    have hmain := hinv.main_eq
    simp only [mainStartup, hloop, hmain, e1, e2]
    refine ⟨_, rfl, ?_, ?_, ?_, ?_, ?_, ?_, ?_⟩
    · rfl
    · exact hinv.items_eq
    · rfl
    · exact fun h => absurd h hne
    · exact fun _ => ⟨hinv.changed_some hne, hinv.selected_some hne⟩
    · intro h
      exact absurd h hlen
    · intro _
      rw [selectGame_eq st.displayGames 0 _ _ _ NewTable _ (by decide) hg0,
        Table.setSix_setSix_NewTable]

end Scores

/-! ## The claims -/

namespace Scores

open tview

/-- C1: for every decoded feed the loop of `main` terminates normally, and the
live-game sequence `displayGames` it builds is a subsequence of the feed's games
in the same relative order, holds no game more often than the feed does, and
every game in it has `GameState` exactly `"live"` (so neither `"Live"` nor
`"live "` occurs). -/
theorem C1_displayGames_is_live_subsequence (data : GameData) :
    ∃ st, mainLoop data.Games initialUI = some st
      ∧ List.Sublist st.displayGames (data.Games.map (fun e => e.Game))
      ∧ (∀ g, st.displayGames.count g ≤ (data.Games.map (fun e => e.Game)).count g)
      ∧ (∀ g ∈ st.displayGames, g.GameState = "live")
      ∧ (∀ g ∈ st.displayGames, g.GameState ≠ "Live" ∧ g.GameState ≠ "live ") := by
  obtain ⟨st, hloop, _, hdg⟩ := mainLoop_inv data.Games initialUI initialUI_inv
  have hdg1 : st.displayGames =
      (data.Games.map (fun e => e.Game)).filter (fun g => decide (g.GameState = "live")) := by
    rw [hdg]
    simp [initialUI]
  have hsub : List.Sublist st.displayGames (data.Games.map (fun e => e.Game)) := by
    rw [hdg1]
    exact List.filter_sublist _
  have hlive : ∀ g ∈ st.displayGames, g.GameState = "live" := by
    intro g hg
    rw [hdg1, List.mem_filter] at hg
    exact of_decide_eq_true hg.2
  refine ⟨st, hloop, hsub, fun g => hsub.count_le g, hlive, ?_⟩
  intro g hg
  rw [hlive g hg]
  exact ⟨by decide, by decide⟩

/-- C2: for every decoded feed, with N the number of its games whose state is
`"live"` and M the number of the others, startup succeeds, `displayGames` has
exactly N entries (N + M is the size of the feed, every live game of the feed
is in it, and it is the feed's live games in feed order), and the menu holds
exactly N items, the entries of those games in the same order. -/
theorem C2_live_count_preserved (data : GameData) :
    ∃ ui, mainStartup data = some ui
      ∧ ui.displayGames.length =
          (data.Games.map (fun e => e.Game)).countP (fun g => decide (g.GameState = "live"))
      ∧ ui.displayGames.length
          + (data.Games.map (fun e => e.Game)).countP (fun g => !decide (g.GameState = "live"))
          = data.Games.length
      ∧ (∀ e ∈ data.Games, e.Game.GameState = "live" → e.Game ∈ ui.displayGames)
      ∧ ui.displayGames =
          (data.Games.map (fun e => e.Game)).filter (fun g => decide (g.GameState = "live"))
      ∧ ui.menu.items.length =
          (data.Games.map (fun e => e.Game)).countP (fun g => decide (g.GameState = "live"))
      ∧ ui.menu.items = ui.displayGames.map listEntry := by
  obtain ⟨ui, hui, hdg, hitems, _⟩ := mainStartup_result data
  have hlen : ui.displayGames.length =
      (data.Games.map (fun e => e.Game)).countP (fun g => decide (g.GameState = "live")) := by
    rw [hdg, filterLive, List.countP_eq_length_filter]
  refine ⟨ui, hui, hlen, ?_, ?_, hdg, ?_, ?_⟩
  · rw [hlen]
    have h := List.length_eq_countP_add_countP (fun g => decide (g.GameState = "live"))
      (data.Games.map (fun e => e.Game))
    rw [List.length_map] at h
    simpa using h.symm
  · intro e he hl
    rw [hdg, filterLive, List.mem_filter]
    exact ⟨List.mem_map_of_mem _ he, decide_eq_true hl⟩
  · rw [hitems, List.length_map, ← hdg, hlen]
  · rw [hitems, hdg]

/-- C3: for every live-game sequence, every index in range and every prior
table, the handler returned by `selectGame` succeeds and stores in row 1 the
home team of game `index`: cell (1,0) has the text prefix + short name + " " +
description, where the prefix is "(" + rank + ") " for a non-empty rank and ""
otherwise, and cell (1,1) has the home score unchanged; both left-aligned. -/
theorem C3_home_row (data : List Game) (index : Int) (mainText secondaryText : String)
    (shortcut : Int) (main : Table)
    (h0 : 0 ≤ index) (h1 : index < (data.length : Int)) :
    ∃ game t1, data[index.toNat]? = some game
      ∧ selectGame data index mainText secondaryText shortcut main = some t1
      ∧ t1.cellAt? 1 0 = some
          { Text := (if game.Home.Rank ≠ "" then "(" ++ game.Home.Rank ++ ") " else "")
                      ++ game.Home.Names.Short ++ " " ++ game.Home.Description,
            Align := Alignment.AlignLeft, Color := Color.ColorDefault }
      ∧ t1.cellAt? 1 1 = some { Text := game.Home.Score, Align := Alignment.AlignLeft,
                                Color := Color.ColorDefault }
      ∧ (t1.GetCell 1 0).Text =
          (if game.Home.Rank ≠ "" then "(" ++ game.Home.Rank ++ ") " else "")
            ++ game.Home.Names.Short ++ " " ++ game.Home.Description
      ∧ (t1.GetCell 1 1).Text = game.Home.Score := by
  obtain ⟨game, hg⟩ := index_in_range data index h0 h1
  have hsel := selectGame_eq data index mainText secondaryText shortcut main game h0 hg
  obtain ⟨_, _, hc, hd, _, _⟩ := Table.setSix_cells main
    { Text := "Team", Align := Alignment.AlignCenter, Color := Color.ColorYellow }
    { Text := "Score", Align := Alignment.AlignCenter, Color := Color.ColorYellow }
    { Text := (if game.Home.Rank ≠ "" then "(" ++ game.Home.Rank ++ ") " else "")
                ++ game.Home.Names.Short ++ " " ++ game.Home.Description,
      Align := Alignment.AlignLeft, Color := Color.ColorDefault }
    { Text := game.Home.Score, Align := Alignment.AlignLeft, Color := Color.ColorDefault }
    { Text := (if game.Away.Rank ≠ "" then "(" ++ game.Away.Rank ++ ") " else "")
                ++ game.Away.Names.Short ++ " " ++ game.Home.Description,
      Align := Alignment.AlignLeft, Color := Color.ColorDefault }
    { Text := game.Away.Score, Align := Alignment.AlignLeft, Color := Color.ColorDefault }
  refine ⟨game, _, hg, hsel, hc, hd, ?_, ?_⟩
  · rw [Table.GetCell_of_cellAt? _ _ _ _ hc]
  · rw [Table.GetCell_of_cellAt? _ _ _ _ hd]

/-- C3, on the specification's scenario B: rank "7", short name "UNC",
description "Tar Heels" and score "21" give the cells "(7) UNC Tar Heels" and
"21" in row 1. -/
theorem C3_home_row_witness :
    ∃ t1, selectGame [scenarioGame] 0 "Duke @ UNC" "3 Quarter, 05:12 remaining" 0 NewTable
        = some t1
      ∧ (t1.GetCell 1 0).Text = "(7) UNC Tar Heels"
      ∧ (t1.GetCell 1 1).Text = "21" := by
  obtain ⟨game, t1, hg, hsel, _, _, h10, h11⟩ :=
    C3_home_row [scenarioGame] 0 "Duke @ UNC" "3 Quarter, 05:12 remaining" 0 NewTable
      (by decide) (by decide)
  have hgame : game = scenarioGame := by
    have h : some scenarioGame = some game := hg
    exact (Option.some.inj h).symm
  subst hgame
  refine ⟨t1, hsel, ?_, ?_⟩
  · rw [h10]
    decide
  · rw [h11]
    decide

/-- C4 (fails on the code): at index 0 of the one-game sequence of scenario B,
whose away team is Duke with description "Blue Devils" and whose home
description is "Tar Heels", the handler writes "Duke Tar Heels" into cell
(2,0): the away line ends in the home team's description, not in the away
team's own, so it differs from "Duke Blue Devils".  The away score cell is the
away score. -/
theorem C4_away_row_takes_home_description :
    (selectGame [scenarioGame] 0 "Duke @ UNC" "3 Quarter, 05:12 remaining" 0 NewTable).map
        (fun t => ((t.GetCell 2 0).Text, (t.GetCell 2 1).Text))
      = some ("Duke Tar Heels", "14")
    ∧ (if scenarioGame.Away.Rank ≠ "" then "(" ++ scenarioGame.Away.Rank ++ ") " else "")
        ++ scenarioGame.Away.Names.Short ++ " " ++ scenarioGame.Away.Description
      = "Duke Blue Devils"
    ∧ "Duke Tar Heels" ≠ "Duke Blue Devils" := by
  refine ⟨?_, ?_, ?_⟩
  · decide
  · decide
  · decide

/-- C5: for every live-game sequence, index in range and prior table, the handler
succeeds and both team lines it stores, the home line in cell (1,0) and the away
line in cell (2,0), begin as follows: with a non-empty rank `r`, with "(" + r +
") " + short name; with an empty rank, directly with the short name, nothing
before it.  This holds for every short name, the empty one included. -/
theorem C5_rank_prefix (data : List Game) (index : Int) (mainText secondaryText : String)
    (shortcut : Int) (main : Table)
    (h0 : 0 ≤ index) (h1 : index < (data.length : Int)) :
    ∃ game t1 homeLine awayLine, data[index.toNat]? = some game
      ∧ selectGame data index mainText secondaryText shortcut main = some t1
      ∧ t1.cellAt? 1 0 = some { Text := homeLine, Align := Alignment.AlignLeft,
                                Color := Color.ColorDefault }
      ∧ t1.cellAt? 2 0 = some { Text := awayLine, Align := Alignment.AlignLeft,
                                Color := Color.ColorDefault }
      ∧ (game.Home.Rank ≠ "" →
          ∃ rest, homeLine = "(" ++ game.Home.Rank ++ ") " ++ game.Home.Names.Short ++ rest)
      ∧ (game.Home.Rank = "" → ∃ rest, homeLine = game.Home.Names.Short ++ rest)
      ∧ (game.Away.Rank ≠ "" →
          ∃ rest, awayLine = "(" ++ game.Away.Rank ++ ") " ++ game.Away.Names.Short ++ rest)
      ∧ (game.Away.Rank = "" → ∃ rest, awayLine = game.Away.Names.Short ++ rest) := by
  obtain ⟨game, hg⟩ := index_in_range data index h0 h1
  have hsel := selectGame_eq data index mainText secondaryText shortcut main game h0 hg
  obtain ⟨_, _, hc, _, he, _⟩ := Table.setSix_cells main
    { Text := "Team", Align := Alignment.AlignCenter, Color := Color.ColorYellow }
    { Text := "Score", Align := Alignment.AlignCenter, Color := Color.ColorYellow }
    { Text := (if game.Home.Rank ≠ "" then "(" ++ game.Home.Rank ++ ") " else "")
                ++ game.Home.Names.Short ++ " " ++ game.Home.Description,
      Align := Alignment.AlignLeft, Color := Color.ColorDefault }
    { Text := game.Home.Score, Align := Alignment.AlignLeft, Color := Color.ColorDefault }
    { Text := (if game.Away.Rank ≠ "" then "(" ++ game.Away.Rank ++ ") " else "")
                ++ game.Away.Names.Short ++ " " ++ game.Home.Description,
      Align := Alignment.AlignLeft, Color := Color.ColorDefault }
    { Text := game.Away.Score, Align := Alignment.AlignLeft, Color := Color.ColorDefault }
  refine ⟨game, _, _, _, hg, hsel, hc, he, ?_, ?_, ?_, ?_⟩
  · intro hr
    exact ⟨" " ++ game.Home.Description, by simp only [hr, ne_eq, not_false_eq_true, if_true,
      String.append_assoc]⟩
  · intro hr
    exact ⟨" " ++ game.Home.Description, by simp [hr, String.append_assoc]⟩
  · intro hr
    exact ⟨" " ++ game.Home.Description, by simp only [hr, ne_eq, not_false_eq_true, if_true,
      String.append_assoc]⟩
  · intro hr
    exact ⟨" " ++ game.Home.Description, by simp [hr, String.append_assoc]⟩

/-- C5, on scenario B: the ranked home team's line begins with "(7) UNC" and
the unranked away team's line begins with "Duke". -/
theorem C5_rank_prefix_witness :
    ∃ t1 homeRest awayRest,
      selectGame [scenarioGame] 0 "Duke @ UNC" "3 Quarter, 05:12 remaining" 0 NewTable
        = some t1
      ∧ (t1.GetCell 1 0).Text = "(" ++ "7" ++ ") " ++ "UNC" ++ homeRest
      ∧ (t1.GetCell 2 0).Text = "Duke" ++ awayRest := by
  obtain ⟨game, t1, homeLine, awayLine, hg, hsel, h10, h20, hhome, _, _, haway⟩ :=
    C5_rank_prefix [scenarioGame] 0 "Duke @ UNC" "3 Quarter, 05:12 remaining" 0 NewTable
      (by decide) (by decide)
  have hgame : game = scenarioGame := by
    have h : some scenarioGame = some game := hg
    exact (Option.some.inj h).symm
  subst hgame
  obtain ⟨homeRest, hhr⟩ := hhome (by decide)
  obtain ⟨awayRest, har⟩ := haway (by decide)
  refine ⟨t1, homeRest, awayRest, hsel, ?_, ?_⟩
  · rw [Table.GetCell_of_cellAt? _ _ _ _ h10, hhr]
    rfl
  · rw [Table.GetCell_of_cellAt? _ _ _ _ h20, har]
    rfl

/-- C6: for every decoded feed, startup succeeds and the menu holds, for the
live games of the feed in feed order, one item each whose main text is exactly
away short name + " @ " + home short name and whose secondary text is exactly
current period + " Quarter, " + contest clock + " remaining" (shortcut 0).  On
scenario A (Duke at UNC, period "3", clock "05:12") the item is "Duke @ UNC",
"3 Quarter, 05:12 remaining". -/
theorem C6_menu_item_texts :
    (∀ data : GameData, ∃ ui, mainStartup data = some ui
        ∧ ui.menu.items =
            ((data.Games.map (fun e => e.Game)).filter
                (fun g => decide (g.GameState = "live"))).map
              (fun g => { MainText := g.Away.Names.Short ++ " @ " ++ g.Home.Names.Short,
                          SecondaryText := g.CurrentPeriod ++ " Quarter, " ++ g.ContestClock
                                             ++ " remaining",
                          Shortcut := 0 }))
    ∧ (mainStartup oneLiveFeed).map (fun ui => ui.menu.items)
        = some [{ MainText := "Duke @ UNC", SecondaryText := "3 Quarter, 05:12 remaining",
                  Shortcut := 0 }] := by
  constructor
  · intro data
    obtain ⟨ui, hui, _, hitems, _⟩ := mainStartup_result data
    exact ⟨ui, hui, hitems⟩
  · decide

/-- C7 as stated fails: on a feed whose only game is finished, startup leaves
the menu empty and the table without any cell, so cell (0,0) is not the stored
header cell "Team" and the grid is not the single header row. -/
theorem C7_counterexample :
    (mainStartup noLiveFeed).map (fun ui => (ui.menu.items, ui.main.cells)) = some ([], [])
    ∧ (mainStartup noLiveFeed).map (fun ui => ui.main.cellAt? 0 0) = some none
    ∧ (mainStartup noLiveFeed).map (fun ui => ui.main.cells)
        ≠ some [[{ Text := "Team", Align := Alignment.AlignCenter, Color := Color.ColorYellow },
                 { Text := "Score", Align := Alignment.AlignCenter,
                   Color := Color.ColorYellow }]] := by
  refine ⟨?_, ?_, ?_⟩
  · decide
  · decide
  · decide

/-- C7, amended: for every decoded feed with zero games in state `"live"`,
startup succeeds, the menu list is empty, no handler is registered, and the
detail table holds no cell at all (the header cells are written only by the
selection handler, which has not run). -/
theorem C7_no_live_games_empty_table (data : GameData)
    (hnone : ∀ e ∈ data.Games, e.Game.GameState ≠ "live") :
    ∃ ui, mainStartup data = some ui
      ∧ ui.menu.items = []
      ∧ ui.menu.changed = none
      ∧ ui.menu.selected = none
      ∧ ui.displayGames = []
      ∧ ui.main.cells = [] := by
  obtain ⟨ui, hui, hdg, hitems, _, hnil, _, hsmall, _⟩ := mainStartup_result data
  have hfl : filterLive data = [] := by
    rw [filterLive, List.filter_eq_nil_iff]
    intro g hg
    obtain ⟨e, he, rfl⟩ := List.mem_map.mp hg
    simpa using hnone e he
  refine ⟨ui, hui, ?_, (hnil hfl).1, (hnil hfl).2, ?_, ?_⟩
  · rw [hitems, hfl]
    rfl
  · rw [hdg, hfl]
  · rw [hsmall (by rw [hfl]; decide)]
    rfl

/-- C7, amended, on a feed whose only game is finished. -/
theorem C7_no_live_games_empty_table_witness :
    ∃ ui, mainStartup noLiveFeed = some ui
      ∧ ui.menu.items = []
      ∧ ui.menu.changed = none
      ∧ ui.menu.selected = none
      ∧ ui.displayGames = []
      ∧ ui.main.cells = [] :=
  C7_no_live_games_empty_table noLiveFeed (by decide)

/-- C8 (fails on the code): on a feed with exactly one live game, the startup
sequence succeeds with that game as the single menu item and the selection
handler registered, yet leaves the detail table without any cell: both
`SetCurrentItem` calls are clamped to the current item 0 and fire nothing.
Had the handler run with index 0, the table would hold three rows. -/
theorem C8_single_live_game_not_selected :
    (mainStartup oneLiveFeed).map
        (fun ui => (ui.displayGames, ui.menu.items.length, ui.menu.changed.isSome,
                    ui.menu.currentItem, ui.main.cells))
      = some ([scenarioGame], 1, true, 0, [])
    ∧ (selectGame [scenarioGame] 0 "Duke @ UNC" "3 Quarter, 05:12 remaining" 0 NewTable).map
        (fun t => t.cells.length) = some 3
    ∧ (mainStartup oneLiveFeed).map (fun ui => ui.main)
        ≠ selectGame [scenarioGame] 0 "Duke @ UNC" "3 Quarter, 05:12 remaining" 0 NewTable := by
  refine ⟨?_, ?_, ?_⟩
  · rfl
  · decide
  · decide

/-- With two or more live games the startup sequence does run the handler, first
with index 1 and then with index 0, and the table ends up as the handler for
index 0 leaves a fresh table: header row, home row and away row of live game 0. -/
theorem mainStartup_selects_first_of_many (data : GameData)
    (hmany : 2 ≤ (filterLive data).length) :
    ∃ ui game, mainStartup data = some ui
      ∧ (filterLive data)[0]? = some game
      ∧ selectGame (filterLive data) 0 "" "" 0 NewTable = some ui.main
      ∧ ui.main.cells =
          [[{ Text := "Team", Align := Alignment.AlignCenter, Color := Color.ColorYellow },
            { Text := "Score", Align := Alignment.AlignCenter, Color := Color.ColorYellow }],
           [{ Text := (if game.Home.Rank ≠ "" then "(" ++ game.Home.Rank ++ ") " else "")
                        ++ game.Home.Names.Short ++ " " ++ game.Home.Description,
              Align := Alignment.AlignLeft, Color := Color.ColorDefault },
            { Text := game.Home.Score, Align := Alignment.AlignLeft,
              Color := Color.ColorDefault }],
           [{ Text := (if game.Away.Rank ≠ "" then "(" ++ game.Away.Rank ++ ") " else "")
                        ++ game.Away.Names.Short ++ " " ++ game.Home.Description,
              Align := Alignment.AlignLeft, Color := Color.ColorDefault },
            { Text := game.Away.Score, Align := Alignment.AlignLeft,
              Color := Color.ColorDefault }]] := by
  obtain ⟨ui, hui, _, _, _, _, _, _, hbig⟩ := mainStartup_result data
  have hlt : 0 < (filterLive data).length := by omega
  have hg : (filterLive data)[(0 : Int).toNat]? = some (filterLive data)[0] :=
    List.getElem?_eq_getElem hlt
  have hsel := hbig hmany
  refine ⟨ui, (filterLive data)[0], hui, hg, hsel, ?_⟩
  rw [selectGame_eq (filterLive data) 0 "" "" 0 NewTable _ (by decide) hg,
    Table.setSix_NewTable] at hsel
  rw [← Option.some.inj hsel]

/-- C9: for every live-game sequence, index in range and prior table, the
handler succeeds, and running it again on its own result (with any item texts)
returns that same table: selection is idempotent.  Moreover the six cells of
rows 0 to 2 depend only on game `index`: any run for the same index, on any
prior table and any sequence holding the same game at that index, stores the
same six cells. -/
theorem C9_selection_idempotent (data : List Game) (index : Int)
    (mainText secondaryText : String) (shortcut : Int) (main : Table)
    (h0 : 0 ≤ index) (h1 : index < (data.length : Int)) :
    ∃ t1, selectGame data index mainText secondaryText shortcut main = some t1
      ∧ (∀ (mainText2 secondaryText2 : String) (shortcut2 : Int),
            selectGame data index mainText2 secondaryText2 shortcut2 t1 = some t1)
      ∧ (∀ (data2 : List Game) (mainText2 secondaryText2 : String) (shortcut2 : Int)
            (main2 : Table), data2[index.toNat]? = data[index.toNat]? →
            ∃ t2, selectGame data2 index mainText2 secondaryText2 shortcut2 main2 = some t2
              ∧ ∀ row column, row < 3 → column < 2 →
                  t2.cellAt? row column = t1.cellAt? row column
                  ∧ (t1.cellAt? row column).isSome = true) := by
  obtain ⟨game, hg⟩ := index_in_range data index h0 h1
  have hsel := fun (d : List Game) (hd : d[index.toNat]? = some game) (a b : String) (c : Int)
    (t : Table) => selectGame_eq d index a b c t game h0 hd
  have hcells := fun (t : Table) => Table.setSix_cells t
    { Text := "Team", Align := Alignment.AlignCenter, Color := Color.ColorYellow }
    { Text := "Score", Align := Alignment.AlignCenter, Color := Color.ColorYellow }
    { Text := (if game.Home.Rank ≠ "" then "(" ++ game.Home.Rank ++ ") " else "")
                ++ game.Home.Names.Short ++ " " ++ game.Home.Description,
      Align := Alignment.AlignLeft, Color := Color.ColorDefault }
    { Text := game.Home.Score, Align := Alignment.AlignLeft, Color := Color.ColorDefault }
    { Text := (if game.Away.Rank ≠ "" then "(" ++ game.Away.Rank ++ ") " else "")
                ++ game.Away.Names.Short ++ " " ++ game.Home.Description,
      Align := Alignment.AlignLeft, Color := Color.ColorDefault }
    { Text := game.Away.Score, Align := Alignment.AlignLeft, Color := Color.ColorDefault }
  refine ⟨_, hsel data hg mainText secondaryText shortcut main, ?_, ?_⟩
  · intro a b c
    rw [hsel data hg a b c, Table.setSix_idem]
  · intro data2 a b c main2 hsame
    refine ⟨_, hsel data2 (hsame.trans hg) a b c main2, ?_⟩
    obtain ⟨p00, p01, p10, p11, p20, p21⟩ := hcells main
    obtain ⟨q00, q01, q10, q11, q20, q21⟩ := hcells main2
    intro row column hrow hcol
    have hr : row = 0 ∨ row = 1 ∨ row = 2 := by omega
    have hc : column = 0 ∨ column = 1 := by omega
    rcases hr with rfl | rfl | rfl <;> rcases hc with rfl | rfl
    · exact ⟨q00.trans p00.symm, by rw [p00]; rfl⟩
    · exact ⟨q01.trans p01.symm, by rw [p01]; rfl⟩
    · exact ⟨q10.trans p10.symm, by rw [p10]; rfl⟩
    · exact ⟨q11.trans p11.symm, by rw [p11]; rfl⟩
    · exact ⟨q20.trans p20.symm, by rw [p20]; rfl⟩
    · exact ⟨q21.trans p21.symm, by rw [p21]; rfl⟩

/-- C9, on a table that already shows the second live game: selecting index 0
of the two-game sequence twice gives the same table as selecting it once. -/
theorem C9_selection_idempotent_witness :
    ∃ t0 t1, selectGame [scenarioGame, otherLiveGame] 1 "" "" 0 NewTable = some t0
      ∧ selectGame [scenarioGame, otherLiveGame] 0 "" "" 0 t0 = some t1
      ∧ selectGame [scenarioGame, otherLiveGame] 0 "" "" 0 t1 = some t1
      ∧ t0 ≠ t1 := by
  obtain ⟨t0, h0, _, _⟩ :=
    C9_selection_idempotent [scenarioGame, otherLiveGame] 1 "" "" 0 NewTable
      (by decide) (by decide)
  obtain ⟨t1, h1, hidem, _⟩ :=
    C9_selection_idempotent [scenarioGame, otherLiveGame] 0 "" "" 0 t0 (by decide) (by decide)
  refine ⟨t0, t1, h0, h1, hidem "" "" 0, ?_⟩
  intro heq
  subst heq
  have e0 : selectGame [scenarioGame, otherLiveGame] 1 "" "" 0 NewTable
      = some { cells := [[{ Text := "Team", Align := Alignment.AlignCenter,
                            Color := Color.ColorYellow },
                          { Text := "Score", Align := Alignment.AlignCenter,
                            Color := Color.ColorYellow }],
                         [{ Text := "Texas A&M Aggies", Align := Alignment.AlignLeft,
                            Color := Color.ColorDefault },
                          { Text := "0", Align := Alignment.AlignLeft,
                            Color := Color.ColorDefault }],
                         [{ Text := "LSU Aggies", Align := Alignment.AlignLeft,
                            Color := Color.ColorDefault },
                          { Text := "3", Align := Alignment.AlignLeft,
                            Color := Color.ColorDefault }]] } := by
    decide
  rw [e0] at h0
  have ht := Option.some.inj h0
  subst ht
  revert h1
  decide

/-- C10: for every decoded feed the loop of `main` terminates normally, and
afterwards: the menu has one item per entry of `displayGames`; if the menu has
an item, the "changed" and the "selected" handler in effect are both
`selectGame` of the complete `displayGames`; and for every index below the
number of menu items, `displayGames[index]` exists, menu item `index` carries
the label and caption of that very game, and the handler called with that index
does not panic, on any table. -/
theorem C10_handlers_cover_all_items (data : GameData) :
    ∃ st, mainLoop data.Games initialUI = some st
      ∧ st.menu.items.length = st.displayGames.length
      ∧ (st.menu.items ≠ [] →
            st.menu.changed = some (selectGame st.displayGames)
            ∧ st.menu.selected = some (selectGame st.displayGames))
      ∧ (∀ index : Int, 0 ≤ index → index < (st.menu.items.length : Int) →
            ∃ game item, st.displayGames[index.toNat]? = some game
              ∧ st.menu.items[index.toNat]? = some item
              ∧ item.MainText = game.Away.Names.Short ++ " @ " ++ game.Home.Names.Short
              ∧ item.SecondaryText =
                  game.CurrentPeriod ++ " Quarter, " ++ game.ContestClock ++ " remaining"
              ∧ ∀ (mainText secondaryText : String) (shortcut : Int) (main : Table),
                  ∃ t1, selectGame st.displayGames index mainText secondaryText shortcut main
                    = some t1) := by
  obtain ⟨st, hloop, hinv, _⟩ := mainLoop_inv data.Games initialUI initialUI_inv
  have hlen : st.menu.items.length = st.displayGames.length := by
    rw [hinv.items_eq, List.length_map]
  refine ⟨st, hloop, hlen, ?_, ?_⟩
  · intro hne
    have hd : st.displayGames ≠ [] := by
      intro h
      apply hne
      rw [hinv.items_eq, h]
      rfl
    exact ⟨hinv.changed_some hd, hinv.selected_some hd⟩
  · intro index h0 h1
    rw [hlen] at h1
    obtain ⟨game, hg⟩ := index_in_range st.displayGames index h0 h1
    refine ⟨game, listEntry game, hg, ?_, rfl, rfl, ?_⟩
    · rw [hinv.items_eq, List.getElem?_map, hg]
      rfl
    · intro a b c t
      exact ⟨_, selectGame_eq st.displayGames index a b c t game h0 hg⟩

end Scores
